import Mathlib

set_option maxRecDepth 16000

/-!
Verification of the MATLAB installation locator (`setup.py`, class `_MatlabFinder`).

The embedding models the host environment explicitly: the filesystem is a
structure of predicates on path strings plus an XML-parse oracle, the Windows
registry is a structure holding the subkeys of the MATLAB key and the
`MATLABROOT` value map, and the process environment is a partial map from
variable names to strings.  The mutable attribute `found_matlab` of the Python
class is threaded through the functions as explicit state.  String and path
primitives (`str.split`, `str.endswith`, `str.startswith`, `os.path.join`,
`os.path.normpath` for POSIX) are implemented over `List Char` so that every
definition evaluates by kernel reduction.
-/

namespace MatlabFinder

/-- Python `str.split` with a one-character separator, on char lists.
`''.split(sep) == ['']`, matching CPython. -/
def chSplit (sep : Char) : List Char → List (List Char)
  | [] => [[]]
  | c :: rest =>
    let r := chSplit sep rest
    if c = sep then [] :: r
    else
      match r with
      | h :: t => (c :: h) :: t
      | [] => [[c]]

/-- Python `str.split` with a one-character separator. -/
def strSplit (s : String) (sep : Char) : List String :=
  (chSplit sep s.data).map String.mk

/-- Python `str.endswith`. -/
def strEndsWith (s p : String) : Bool :=
  p.data.isSuffixOf s.data

/-- Python `str.startswith`. -/
def strStartsWith (s p : String) : Bool :=
  p.data.isPrefixOf s.data

/-- POSIX `os.path.join` for two components, as in CPython `posixpath.join`. -/
def joinPath (a b : String) : String :=
  if strStartsWith b "/" then b
  else if a = "" ∨ strEndsWith a "/" then a ++ b
  else a ++ "/" ++ b

/-- Component processing of CPython `posixpath.normpath`: drops empty and `.`
components and resolves `..` lexically. -/
def normComps (initSlashes : Nat) (comps : List String) : List String :=
  comps.foldl (fun comps_new comp =>
    if comp = "" ∨ comp = "." then comps_new
    else if comp ≠ ".." ∨ (initSlashes = 0 ∧ comps_new = []) ∨
            (comps_new ≠ [] ∧ comps_new.getLastD "" = "..") then
      comps_new ++ [comp]
    else if comps_new ≠ [] then comps_new.dropLast
    else comps_new) []

/-- Final reassembly step of CPython `posixpath.normpath`: leading slashes,
joined components, and the `return path or '.'` fallback. -/
def normJoin (initSlashes : Nat) (comps_new : List String) : String :=
  let p := String.mk (List.replicate initSlashes '/') ++ String.intercalate "/" comps_new
  if p = "" then "." else p

/-- CPython `posixpath.normpath`. -/
def normpath (path : String) : String :=
  if path = "" then "."
  else
    let initSlashes : Nat :=
      if strStartsWith path "/" then
        if strStartsWith path "//" && !(strStartsWith path "///") then 2 else 1
      else 0
    normJoin initSlashes (normComps initSlashes (strSplit path '/'))

/-- One child element of a parsed XML document: its tag and its text. -/
structure XmlChild where
  tag : String
  text : String
deriving DecidableEq

/-- The filesystem as seen by the locator: file/directory/existence tests and
the outcome of `xml.etree.ElementTree.parse` on a path (`Except.error` models a
fatal `ParseError`; the `.ok` value is the list of children of the root
element). -/
structure FS where
  isFile : String → Bool
  isDir : String → Bool
  pathExists : String → Bool
  parseXml : String → Except String (List XmlChild)

/-- The Windows registry as seen by the locator: `matlabKey = none` models an
`OSError` when opening `SOFTWARE\MathWorks\MATLAB`; otherwise its subkeys in
enumeration order.  `rootValue` is the `MATLABROOT` value stored under a
version subkey, `none` modelling a missing value. -/
structure Registry where
  matlabKey : Option (List String)
  rootValue : String → Option String

-- Class constants of `_MatlabFinder` (setup.py lines 16-45).

def PLATFORM_DICT : List (String × String) :=
  [("Windows", "PATH"), ("Linux", "LD_LIBRARY_PATH"), ("Darwin", "DYLD_LIBRARY_PATH")]

def MATLAB_REL : String := "R2022a"

def MATLAB_VER : String := "9.12"

def SUPPORTED_PYTHON_VERSIONS : List String := ["3.8", "3.9"]

def VER_TO_REL : List (String × String) :=
  [("9.6", "R2019a"), ("9.7", "R2019b"), ("9.8", "R2020a"), ("9.9", "R2020b"),
   ("9.10", "R2021a"), ("9.11", "R2021b"), ("9.12", "R2022a")]

def DEFAULT_INSTALLS : String → Option String
  | "Darwin" => some ("/Applications/MATLAB_" ++ MATLAB_REL ++ ".app")
  | "Linux" => some ("/usr/local/MATLAB/" ++ MATLAB_REL)
  | _ => none

-- Error messages of `_MatlabFinder` (setup.py lines 53-65), pre-formatted.

def minimum_required : String :=
  "No compatible version of MATLAB was found. This feature supports MATLAB R2019a and later."

def dir_not_found : String := "Directory not found: "

def install_compatible : String :=
  "To install a compatible version, call python -m pip install matlabengine=="

def no_windows_install : String := "MATLAB installation not found in Windows Registry:"

def unsupported_platform (plat : String) : String :=
  plat ++ " is not a supported platform."

def unsupported_python (python supported : String) : String :=
  python ++ " is not supported. The supported Python versions are " ++ supported ++ "."

def set_path (path1 arch path2 : String) : String :=
  "MATLAB installation not found in " ++ path1 ++ ". Add matlabroot/bin/" ++ arch ++
    " to " ++ path2 ++ "."

def no_compatible_matlab (ver : String) : String :=
  "No compatible MATLAB installation found in Windows Registry. This release of " ++
    "MATLAB Engine API for Python is compatible with version " ++ ver ++
    ". The found versions were"

def no_matlab : String := "No MATLAB installation found in Windows Registry."

def incompatible_ver (ver found : String) : String :=
  "MATLAB version " ++ ver ++ " was found, but MATLAB Engine API for Python is not compatible with it. " ++
    "To install a compatible version, call python -m pip install matlabengine==" ++ found ++ "."

/-- `set_platform_and_arch` (setup.py lines 67-87): returns the pair
`(path_name, arch)` set on the instance, or the `RuntimeError` message. -/
def set_platform_and_arch (system : String) (macArm : Bool) : Except String (String × String) :=
  match List.lookup system PLATFORM_DICT with
  | none => .error (unsupported_platform system)
  | some path_name =>
    if system = "Windows" then .ok (path_name, "win64")
    else if system = "Linux" then .ok (path_name, "glnxa64")
    else if system = "Darwin" then .ok (path_name, if macArm then "maca64" else "maci64")
    else .error (unsupported_platform system)

/-- `set_python_version` (setup.py lines 89-97): the supported-set rendering in
the message is abstracted to a comma-separated list. -/
def set_python_version (major minor : Nat) : Except String String :=
  let python_ver := toString major ++ "." ++ toString minor
  if SUPPORTED_PYTHON_VERSIONS.contains python_ver then .ok python_ver
  else .error (unsupported_python python_ver (String.intercalate ", " SUPPORTED_PYTHON_VERSIONS))

/-- `unix_default_install_exists` (setup.py lines 99-104).  `run` only calls it
for platforms present in `DEFAULT_INSTALLS`, so the `none` branch is
unreachable from `run` (in Python it would be a `KeyError`). -/
def unix_default_install_exists (fs : FS) (plat : String) : Bool :=
  match DEFAULT_INSTALLS plat with
  | some path => fs.pathExists path
  | none => false

/-- `_create_path_list` (setup.py lines 106-119).  The POSIX `os.pathsep` is
`:`. -/
def _create_path_list (environ : String → Option String) (path_name arch : String) :
    Except String (List String) :=
  let path_dirs : List String :=
    match environ path_name with
    | some path_string => strSplit path_string ':'
    | none => []
  if path_dirs = [] then .error (set_path path_name arch path_name)
  else .ok path_dirs

/-- `verify_matlab_release` (setup.py lines 187-207), with the instance field
`found_matlab` threaded as state: the result pairs the returned `Bool` with
the new value of `found_matlab`.  A malformed `VersionInfo.xml` is the
propagated `Except.error` of the parser. -/
def verify_matlab_release (fs : FS) (found_matlab root : String) :
    Except String (Bool × String) :=
  let version_info := joinPath root "VersionInfo.xml"
  if !(fs.isFile version_info) then .ok (false, found_matlab)
  else
    match fs.parseXml version_info with
    | .error e => .error e
    | .ok tree_root =>
      match tree_root.find? (fun child => child.tag == "release") with
      | none => .ok (("" == MATLAB_REL), found_matlab)
      | some child => .ok ((child.text == MATLAB_REL), child.text)

/-- Root derived from a `bin/<arch>` candidate directory: two path levels up,
normalized (`os.path.normpath(os.path.join(dir, os.pardir, os.pardir))`,
setup.py line 127). -/
def rootOf (dir : String) : String :=
  normpath (joinPath (joinPath dir "..") "..")

/-- `_get_matlab_root_from_unix_bin` (setup.py lines 121-132), with
`found_matlab` threaded as state.  Returns `("", found)` when MATLAB is not
found at this candidate. -/
def _get_matlab_root_from_unix_bin (fs : FS) (found_matlab dir : String) :
    Except String (String × String) :=
  let matlab_path := joinPath dir "MATLAB"
  let possible_root := rootOf dir
  if fs.isFile matlab_path then
    match verify_matlab_release fs found_matlab possible_root with
    | .error e => .error e
    | .ok (ok_rel, found) => .ok ((if ok_rel then possible_root else ""), found)
  else .ok ("", found_matlab)

/-- Inner `while` loop of `search_path_for_directory_unix` (setup.py lines
225-231): tries each ending in turn while `matlab_root` is empty. -/
def scanEndings (fs : FS) (found_matlab path : String) :
    List String → Except String (String × String)
  | [] => .ok ("", found_matlab)
  | ending :: rest =>
    if strEndsWith path ending then
      match _get_matlab_root_from_unix_bin fs found_matlab path with
      | .error e => .error e
      | .ok (matlab_root, found) =>
        if matlab_root = "" then scanEndings fs found path rest
        else .ok (matlab_root, found)
    else scanEndings fs found_matlab path rest

/-- Outer `while` loop of `search_path_for_directory_unix` (setup.py lines
222-232): tries each candidate directory in order while `matlab_root` is
empty. -/
def scanDirs (fs : FS) (found_matlab : String) (endings : List String) :
    List String → Except String (String × String)
  | [] => .ok ("", found_matlab)
  | path :: rest =>
    match scanEndings fs found_matlab path endings with
    | .error e => .error e
    | .ok (matlab_root, found) =>
      if matlab_root = "" then scanDirs fs found endings rest
      else .ok (matlab_root, found)

/-- `search_path_for_directory_unix` (setup.py lines 209-246), with
`found_matlab` threaded as state (it is `''` at the start of `run`). -/
def search_path_for_directory_unix (fs : FS) (environ : String → Option String)
    (path_name arch found_matlab : String) : Except String String :=
  match _create_path_list environ path_name arch with
  | .error e => .error e
  | .ok path_dirs =>
    let dir_to_find := joinPath "bin" arch
    let endings := [dir_to_find, dir_to_find ++ "/"]
    match scanDirs fs found_matlab endings path_dirs with
    | .error e => .error e
    | .ok (matlab_root, found) =>
      if matlab_root = "" then
        if found ≠ "" then
          match List.lookup found VER_TO_REL with
          | some rel => .error (incompatible_ver rel found)
          | none => .error minimum_required
        else .error (set_path path_name arch path_name)
      else if !(fs.isDir matlab_root) then
        .error (dir_not_found ++ " " ++ matlab_root)
      else .ok matlab_root

/-- Loop of `_find_matlab_key_from_windows_registry` (setup.py lines 166-176):
returns the matched key (or `""`) and the accumulated `found_vers`. -/
def findMatlabKeyGo (found_vers : List String) : List String → String × List String
  | [] => ("", found_vers)
  | sub_key :: rest =>
    let fv := found_vers ++ [sub_key]
    if strStartsWith sub_key MATLAB_VER then (sub_key, fv)
    else findMatlabKeyGo fv rest

/-- `_find_matlab_key_from_windows_registry` (setup.py lines 160-185), over the
subkeys of the MATLAB registry key in enumeration order. -/
def _find_matlab_key_from_windows_registry (sub_keys : List String) : Except String String :=
  let kv := findMatlabKeyGo [] sub_keys
  if kv.1 = "" then
    if kv.2 ≠ [] then
      let vers := String.intercalate ", " kv.2
      .error (no_compatible_matlab MATLAB_VER ++ " " ++ vers ++ ". " ++
        install_compatible ++ kv.2.getLastD "" ++ ".")
    else .error no_matlab
  else .ok kv.1

/-- `_get_root_from_version_key` (setup.py lines 147-158); the text of the
caught `OSError` is abstracted. -/
def _get_root_from_version_key (reg : Registry) (ver_key : String) : Except String String :=
  match reg.rootValue ver_key with
  | some matlab_root => .ok matlab_root
  | none => .error (no_windows_install ++ " FileNotFoundError")

/-- `get_matlab_root_from_windows_reg` (setup.py lines 134-145); the text of
the caught `OSError` is abstracted. -/
def get_matlab_root_from_windows_reg (reg : Registry) : Except String String :=
  match reg.matlabKey with
  | none => .error (no_windows_install ++ " OSError")
  | some key =>
    match _find_matlab_key_from_windows_registry key with
    | .error e => .error e
    | .ok matlab_ver_key => _get_root_from_version_key reg matlab_ver_key

/-- A file written by the locator: its path and its full contents. -/
structure WrittenFile where
  location : String
  content : String
deriving DecidableEq

/-- `write_text_file` (setup.py lines 248-260): the `_arch.txt` file produced
for a confirmed root.  Opening with mode `w` truncates, so the content is a
function of the arguments alone, independent of any previous file. -/
def write_text_file (cwd arch matlab_root : String) : WrittenFile :=
  let file_location := joinPath (joinPath (joinPath (joinPath cwd "src") "matlab") "engine") "_arch.txt"
  let bin_arch := joinPath (joinPath matlab_root "bin") arch
  let engine_arch := joinPath (joinPath (joinPath (joinPath (joinPath (joinPath
    (joinPath matlab_root "extern") "engines") "python") "dist") "matlab") "engine") arch
  let extern_bin := joinPath (joinPath (joinPath matlab_root "extern") "bin") arch
  { location := file_location
    content := arch ++ "\n" ++ bin_arch ++ "\n" ++ engine_arch ++ "\n" ++ extern_bin }

/-- The host environment of one discovery run. -/
structure Env where
  system : String
  macArm : Bool
  pyMajor : Nat
  pyMinor : Nat
  environ : String → Option String
  fs : FS
  registry : Registry
  cwd : String

/-- `run` (setup.py lines 262-277): the first component is the outcome of the
run (the `RuntimeError` message on failure), the second the list of files
written during the run.  `build_py.run(self)` is outside the covered code. -/
def run (env : Env) : Except String Unit × List WrittenFile :=
  match set_platform_and_arch env.system env.macArm with
  | .error e => (.error e, [])
  | .ok (path_name, arch) =>
    match set_python_version env.pyMajor env.pyMinor with
    | .error e => (.error e, [])
    | .ok _ =>
      let rootRes : Except String String :=
        if env.system = "Windows" then get_matlab_root_from_windows_reg env.registry
        else if unix_default_install_exists env.fs env.system then
          .ok ((DEFAULT_INSTALLS env.system).getD "")
        else search_path_for_directory_unix env.fs env.environ path_name arch ""
      match rootRes with
      | .error e => (.error e, [])
      | .ok matlab_root => (.ok (), [write_text_file env.cwd arch matlab_root])

/-! Auxiliary lemmas about the string primitives. -/

theorem mk_data (s : String) : String.mk s.data = s := rfl

theorem str_eq_empty_of_data_nil {s : String} (h : s.data = []) : s = "" := by
  cases s with
  | mk d => cases h; rfl

theorem strEndsWith_empty_of_ne (p : String) (h : p ≠ "") : strEndsWith "" p = false := by
  cases hb : strEndsWith "" p
  · rfl
  · exfalso
    have hs : p.data <:+ ("" : String).data := List.isSuffixOf_iff_suffix.mp hb
    have : p.data = [] := List.suffix_nil.mp hs
    exact h (str_eq_empty_of_data_nil this)

theorem ne_empty_of_startsWith (s p : String) (hp : p ≠ "") (h : strStartsWith s p = true) :
    s ≠ "" := by
  intro hs
  subst hs
  have hpre : p.data <+: ("" : String).data := List.isPrefixOf_iff_prefix.mp h
  exact hp (str_eq_empty_of_data_nil (List.prefix_nil.mp hpre))

theorem append_slash_ne_empty (s : String) : s ++ "/" ≠ "" := by
  intro h
  have := congrArg String.data h
  rw [String.data_append] at this
  simp at this

theorem joinPath_bin_ne_empty (arch : String) : joinPath "bin" arch ≠ "" := by
  unfold joinPath
  split
  · rename_i hst
    exact ne_empty_of_startsWith arch "/" (by decide) hst
  · split
    · rename_i hcond
      exact absurd hcond (by decide)
    · intro h
      have := congrArg String.data h
      rw [String.data_append, String.data_append] at this
      simp at this

theorem normJoin_ne_empty (i : Nat) (c : List String) : normJoin i c ≠ "" := by
  unfold normJoin
  dsimp only
  split
  · decide
  · assumption

theorem normpath_ne_empty (s : String) : normpath s ≠ "" := by
  unfold normpath
  split
  · decide
  · exact normJoin_ne_empty _ _

theorem rootOf_ne_empty (dir : String) : rootOf dir ≠ "" :=
  normpath_ne_empty _

theorem chSplit_ne_nil (sep : Char) (l : List Char) : chSplit sep l ≠ [] := by
  induction l with
  | nil => simp [chSplit]
  | cons c rest ih =>
    unfold chSplit
    dsimp only
    split
    · simp
    · split <;> simp

theorem chSplit_no_sep (sep : Char) (l : List Char) (h : sep ∉ l) : chSplit sep l = [l] := by
  induction l with
  | nil => rfl
  | cons c rest ih =>
    have hc : ¬(c = sep) := fun e => h (e ▸ List.mem_cons_self c rest)
    have hr : sep ∉ rest := fun m => h (List.mem_cons_of_mem _ m)
    unfold chSplit
    dsimp only
    rw [if_neg hc, ih hr]

theorem chSplit_append (sep : Char) (l₁ l₂ : List Char) (h : sep ∉ l₁) :
    chSplit sep (l₁ ++ sep :: l₂) = l₁ :: chSplit sep l₂ := by
  induction l₁ with
  | nil => simp [chSplit]
  | cons c rest ih =>
    have hc : ¬(c = sep) := fun e => h (e ▸ List.mem_cons_self c rest)
    have hr : sep ∉ rest := fun m => h (List.mem_cons_of_mem _ m)
    show chSplit sep (c :: (rest ++ sep :: l₂)) = (c :: rest) :: chSplit sep l₂
    simp only [chSplit]
    rw [if_neg hc, ih hr]

theorem strSplit_newline_content (a b c d : String)
    (ha : '\n' ∉ a.data) (hb : '\n' ∉ b.data) (hc : '\n' ∉ c.data) (hd : '\n' ∉ d.data) :
    strSplit (a ++ "\n" ++ b ++ "\n" ++ c ++ "\n" ++ d) '\n' = [a, b, c, d] := by
  have hnl : ("\n" : String).data = ['\n'] := rfl
  have hdata : (a ++ "\n" ++ b ++ "\n" ++ c ++ "\n" ++ d).data
      = a.data ++ '\n' :: (b.data ++ '\n' :: (c.data ++ '\n' :: d.data)) := by
    simp [String.data_append, hnl]
  unfold strSplit
  rw [hdata, chSplit_append _ _ _ ha, chSplit_append _ _ _ hb, chSplit_append _ _ _ hc,
      chSplit_no_sep _ _ hd]
  simp [mk_data]

theorem joinPath_no_newline (a b : String) (ha : '\n' ∉ a.data) (hb : '\n' ∉ b.data) :
    '\n' ∉ (joinPath a b).data := by
  have hs : ("/" : String).data = ['/'] := rfl
  unfold joinPath
  split
  · exact hb
  · split
    · rw [String.data_append]
      simp only [List.mem_append]
      rintro (h | h)
      · exact ha h
      · exact hb h
    · rw [String.data_append, String.data_append, hs]
      simp only [List.mem_append, List.mem_singleton]
      rintro ((h | h) | h)
      · exact ha h
      · exact absurd h (by decide)
      · exact hb h

/-! Claim C3: the discovery file. -/

/-- Claim C3: for every confirmed matlabRoot and architecture tag,
`write_text_file` writes exactly four newline-separated lines to the fixed
output location, in this order: the architecture tag, `<root>/bin/<arch>`,
`<root>/extern/engines/python/dist/matlab/engine/<arch>`, and
`<root>/extern/bin/<arch>`, with nothing after the fourth line.  The content
is a function of the arguments alone (mode `w` truncates), so any previous
file is unconditionally overwritten. -/
theorem write_text_file_four_lines (cwd arch matlab_root : String)
    (ha : '\n' ∉ arch.data) (hr : '\n' ∉ matlab_root.data) :
    strSplit (write_text_file cwd arch matlab_root).content '\n' =
      [arch,
       joinPath (joinPath matlab_root "bin") arch,
       joinPath (joinPath (joinPath (joinPath (joinPath (joinPath
         (joinPath matlab_root "extern") "engines") "python") "dist") "matlab") "engine") arch,
       joinPath (joinPath (joinPath matlab_root "extern") "bin") arch] ∧
    (write_text_file cwd arch matlab_root).location =
      joinPath (joinPath (joinPath (joinPath cwd "src") "matlab") "engine") "_arch.txt" := by
  have hbin : '\n' ∉ (joinPath (joinPath matlab_root "bin") arch).data :=
    joinPath_no_newline _ _ (joinPath_no_newline _ _ hr (by decide)) ha
  have heng : '\n' ∉ (joinPath (joinPath (joinPath (joinPath (joinPath (joinPath
      (joinPath matlab_root "extern") "engines") "python") "dist") "matlab") "engine") arch).data :=
    joinPath_no_newline _ _ (joinPath_no_newline _ _ (joinPath_no_newline _ _
      (joinPath_no_newline _ _ (joinPath_no_newline _ _ (joinPath_no_newline _ _
        (joinPath_no_newline _ _ hr (by decide)) (by decide)) (by decide)) (by decide))
        (by decide)) (by decide)) ha
  have hext : '\n' ∉ (joinPath (joinPath (joinPath matlab_root "extern") "bin") arch).data :=
    joinPath_no_newline _ _ (joinPath_no_newline _ _ (joinPath_no_newline _ _
      hr (by decide)) (by decide)) ha
  exact ⟨strSplit_newline_content _ _ _ _ ha hbin heng hext, rfl⟩

/-- Witness for claim C3 at the spec's concrete example. -/
theorem write_text_file_four_lines_witness :
    strSplit (write_text_file "/w" "glnxa64" "/usr/local/MATLAB/R2022a").content '\n' =
      ["glnxa64",
       "/usr/local/MATLAB/R2022a/bin/glnxa64",
       "/usr/local/MATLAB/R2022a/extern/engines/python/dist/matlab/engine/glnxa64",
       "/usr/local/MATLAB/R2022a/extern/bin/glnxa64"] :=
  (write_text_file_four_lines "/w" "glnxa64" "/usr/local/MATLAB/R2022a"
    (by decide) (by decide)).1

/-! Claim C6: `verify_matlab_release`. -/

/-- Claim C6: `verify_matlab_release` returns false (with `found_matlab`
unchanged) when `<root>/VersionInfo.xml` is absent; when the file is present
and well-formed it records the text of the first child element named
`release` into `found_matlab` (even when it does not match) and returns true
if and only if that text exactly equals `MATLAB_REL`; malformed XML
propagates the fatal parse error instead of returning false. -/
theorem verify_matlab_release_cases (fs : FS) (found root : String) :
    (fs.isFile (joinPath root "VersionInfo.xml") = false →
      verify_matlab_release fs found root = .ok (false, found)) ∧
    (∀ e, fs.isFile (joinPath root "VersionInfo.xml") = true →
      fs.parseXml (joinPath root "VersionInfo.xml") = .error e →
      verify_matlab_release fs found root = .error e) ∧
    (∀ children child, fs.isFile (joinPath root "VersionInfo.xml") = true →
      fs.parseXml (joinPath root "VersionInfo.xml") = .ok children →
      children.find? (fun c => c.tag == "release") = some child →
      verify_matlab_release fs found root = .ok ((child.text == MATLAB_REL), child.text)) := by
  refine ⟨fun h => ?_, fun e h hp => ?_, fun cs c h hp hf => ?_⟩
  · simp [verify_matlab_release, h]
  · simp [verify_matlab_release, h, hp]
  · simp [verify_matlab_release, h, hp, hf]

/-- A candidate installation at `/opt/m` whose `VersionInfo.xml` reports the
release text `9.10`. -/
def fsA : FS :=
  { isFile := fun p => p == "/opt/m/bin/glnxa64/MATLAB" || p == "/opt/m/VersionInfo.xml"
    isDir := fun _ => false
    pathExists := fun _ => false
    parseXml := fun p =>
      if p == "/opt/m/VersionInfo.xml" then .ok [⟨"release", "9.10"⟩]
      else .error "ParseError" }

/-- Witness for claim C6: a present, well-formed descriptor with a
non-matching release text is recorded and rejected. -/
theorem verify_matlab_release_cases_witness :
    verify_matlab_release fsA "" "/opt/m" = .ok (false, "9.10") :=
  (verify_matlab_release_cases fsA "" "/opt/m").2.2
    [⟨"release", "9.10"⟩] ⟨"release", "9.10"⟩ rfl rfl rfl

/-! Claims C4 and C5: the Windows registry lookup. -/

theorem findMatlabKeyGo_no_match (acc l : List String)
    (h : ∀ k ∈ l, strStartsWith k MATLAB_VER = false) :
    findMatlabKeyGo acc l = ("", acc ++ l) := by
  induction l generalizing acc with
  | nil => simp [findMatlabKeyGo]
  | cons k rest ih =>
    have hk := h k (List.mem_cons_self _ _)
    simp only [findMatlabKeyGo, hk]
    rw [ih (acc ++ [k]) (fun j hj => h j (List.mem_cons_of_mem _ hj))]
    simp

theorem findMatlabKeyGo_match (acc pre : List String) (k : String) (post : List String)
    (hpre : ∀ j ∈ pre, strStartsWith j MATLAB_VER = false)
    (hk : strStartsWith k MATLAB_VER = true) :
    (findMatlabKeyGo acc (pre ++ k :: post)).1 = k := by
  induction pre generalizing acc with
  | nil => simp [findMatlabKeyGo, hk]
  | cons j rest ih =>
    have hj := hpre j (List.mem_cons_self _ _)
    simp only [List.cons_append, findMatlabKeyGo, hj]
    exact ih (acc ++ [j]) (fun i hi => hpre i (List.mem_cons_of_mem _ hi))

/-- Claim C4: `_find_matlab_key_from_windows_registry` returns the first
subkey (in enumeration order) whose string starts with `MATLAB_VER`, and
`get_matlab_root_from_windows_reg` then returns the root value stored under
it. -/
theorem registry_first_matching_subkey (pre : List String) (k : String) (post : List String)
    (rootVal : String → Option String) (r : String)
    (hpre : ∀ j ∈ pre, strStartsWith j MATLAB_VER = false)
    (hk : strStartsWith k MATLAB_VER = true)
    (hr : rootVal k = some r) :
    get_matlab_root_from_windows_reg ⟨some (pre ++ k :: post), rootVal⟩ = .ok r := by
  have hne : k ≠ "" := by
    intro he
    exact ne_empty_of_startsWith k MATLAB_VER (by decide) hk he
  have hfind : _find_matlab_key_from_windows_registry (pre ++ k :: post) = .ok k := by
    unfold _find_matlab_key_from_windows_registry
    dsimp only
    rw [findMatlabKeyGo_match [] pre k post hpre hk]
    simp [hne]
  simp [get_matlab_root_from_windows_reg, hfind, _get_root_from_version_key, hr]

/-- Witness for claim C4 at the spec's concrete example: subkeys
`["9.11.0", "9.12.3"]` with expected version `9.12` select `9.12.3`. -/
theorem registry_first_matching_subkey_witness :
    get_matlab_root_from_windows_reg
      ⟨some ["9.11.0", "9.12.3"],
       fun v => if v == "9.12.3" then some "C:/Program Files/MATLAB/R2022a" else none⟩ =
      .ok "C:/Program Files/MATLAB/R2022a" :=
  registry_first_matching_subkey ["9.11.0"] "9.12.3" []
    (fun v => if v == "9.12.3" then some "C:/Program Files/MATLAB/R2022a" else none)
    "C:/Program Files/MATLAB/R2022a" (by decide) (by decide) rfl

/-- Modelled from the spec: numeric value of one dot-separated version
component, for deciding which found version is "newest". -/
def compToNat (cs : List Char) : Nat :=
  cs.foldl (fun n c => n * 10 + (c.toNat - 48)) 0

/-- Modelled from the spec: the dot-separated components of a version string,
numerically. -/
def versionComps (v : String) : List Nat :=
  (chSplit '.' v.data).map compToNat

/-- Modelled from the spec: strict "older than" on version component lists
(componentwise numeric comparison, missing components are older). -/
def verLt : List Nat → List Nat → Bool
  | [], [] => false
  | [], _ :: _ => true
  | _ :: _, [] => false
  | a :: as, b :: bs => if a < b then true else if b < a then false else verLt as bs

/-- Modelled from the spec: the newest of the found version strings, the one
the claim says the install hint should name. -/
def newestFound (vers : List String) : String :=
  vers.foldl (fun acc v => if verLt (versionComps acc) (versionComps v) then v else acc) ""

/-- Counterexample to claim C5: with subkeys `["9.10.0", "9.9.0"]` (their
alphabetical registry enumeration order) and no prefix match, the install
hint names `9.9.0` — the last enumerated subkey — while the newest found
version is `9.10.0`. -/
theorem registry_hint_not_newest :
    _find_matlab_key_from_windows_registry ["9.10.0", "9.9.0"] =
      .error (no_compatible_matlab MATLAB_VER ++ " 9.10.0, 9.9.0. " ++
        install_compatible ++ "9.9.0.") ∧
    newestFound ["9.10.0", "9.9.0"] = "9.10.0" ∧
    ("9.9.0" : String) ≠ "9.10.0" :=
  ⟨rfl, rfl, by decide⟩

/-- Claim C5 (amended): for a non-empty sequence of subkeys none of which
starts with `MATLAB_VER`, the failure is NoCompatibleInstall including the
full list of found version strings and an install hint naming the LAST
subkey in enumeration order (the newest only when enumeration is sorted
oldest-to-newest); for an empty sequence it is NoInstallFound. -/
theorem registry_no_match_failure (sub_keys : List String)
    (h : ∀ k ∈ sub_keys, strStartsWith k MATLAB_VER = false) :
    _find_matlab_key_from_windows_registry sub_keys =
      if sub_keys = [] then .error no_matlab
      else .error (no_compatible_matlab MATLAB_VER ++ " " ++
        String.intercalate ", " sub_keys ++ ". " ++
        install_compatible ++ sub_keys.getLastD "" ++ ".") := by
  unfold _find_matlab_key_from_windows_registry
  dsimp only
  rw [findMatlabKeyGo_no_match [] sub_keys h]
  cases sub_keys with
  | nil => simp
  | cons a l => simp

/-- Witness for claim C5 at the spec's concrete example `["9.10.0"]`, plus
the empty-subkeys case. -/
theorem registry_no_match_failure_witness :
    _find_matlab_key_from_windows_registry ["9.10.0"] =
      .error (no_compatible_matlab MATLAB_VER ++ " 9.10.0. " ++
        install_compatible ++ "9.10.0.") ∧
    _find_matlab_key_from_windows_registry [] = .error no_matlab := by
  constructor
  · have h := registry_no_match_failure ["9.10.0"] (by decide)
    simpa using h
  · have h := registry_no_match_failure [] (by decide)
    simpa using h

/-! Claim C7: unset or empty search-path variable. -/

/-- Counterexample to claim C7: with the search-path variable set to the
empty string, `_create_path_list` does not fail: `''.split(':')` is `['']`,
a non-empty list, so it returns that list. -/
theorem create_path_list_empty_string_succeeds :
    _create_path_list (fun _ => some "") "LD_LIBRARY_PATH" "glnxa64" = .ok [""] := rfl

theorem scanDirs_empty_candidate (fs : FS) (arch : String) :
    scanDirs fs "" [joinPath "bin" arch, joinPath "bin" arch ++ "/"] [""] = .ok ("", "") := by
  have h1 : strEndsWith "" (joinPath "bin" arch) = false :=
    strEndsWith_empty_of_ne _ (joinPath_bin_ne_empty arch)
  have h2 : strEndsWith "" (joinPath "bin" arch ++ "/") = false :=
    strEndsWith_empty_of_ne _ (append_slash_ne_empty _)
  simp [scanDirs, scanEndings, h1, h2]

/-- Claim C7 (amended): when the search-path variable is unset,
`_create_path_list` fails with the SearchPathNotSet diagnostic before any
candidate is examined; when it is set to the empty string,
`_create_path_list` instead returns the single empty candidate `[""]`, which
fails the suffix test, and `search_path_for_directory_unix` then fails with
the same SearchPathNotSet diagnostic at the end of the scan. -/
theorem search_path_not_set_behaviour (fs : FS) (environ : String → Option String)
    (path_name arch : String) :
    (environ path_name = none →
      _create_path_list environ path_name arch = .error (set_path path_name arch path_name)) ∧
    (environ path_name = some "" →
      search_path_for_directory_unix fs environ path_name arch "" =
        .error (set_path path_name arch path_name)) := by
  constructor
  · intro h
    simp [_create_path_list, h]
  · intro h
    have hsp : strSplit "" ':' = [""] := rfl
    have hsc := scanDirs_empty_candidate fs arch
    simp [search_path_for_directory_unix, _create_path_list, h, hsp, hsc]

/-- A filesystem with no files at all. -/
def fsEmpty : FS :=
  { isFile := fun _ => false
    isDir := fun _ => false
    pathExists := fun _ => false
    parseXml := fun _ => .error "ParseError" }

/-- Witness for claim C7 (amended), at the unset and empty-string cases. -/
theorem search_path_not_set_behaviour_witness :
    _create_path_list (fun _ => none) "LD_LIBRARY_PATH" "glnxa64" =
      .error (set_path "LD_LIBRARY_PATH" "glnxa64" "LD_LIBRARY_PATH") ∧
    search_path_for_directory_unix fsEmpty (fun _ => some "") "LD_LIBRARY_PATH" "glnxa64" "" =
      .error (set_path "LD_LIBRARY_PATH" "glnxa64" "LD_LIBRARY_PATH") :=
  ⟨(search_path_not_set_behaviour fsEmpty (fun _ => none) "LD_LIBRARY_PATH" "glnxa64").1 rfl,
   (search_path_not_set_behaviour fsEmpty (fun _ => some "") "LD_LIBRARY_PATH" "glnxa64").2 rfl⟩

/-! Claim C1: classification of a failed search-path scan. -/

/-- Claim C1: for every search-path scan that finds no winning candidate but
during which a (non-empty) version descriptor was read from some rejected
candidate, if that descriptor is a key of the known-version map `VER_TO_REL`
then `search_path_for_directory_unix` fails with the IncompatibleVersion
diagnostic, whose text names the descriptor itself as the exact
pip-installable package version to use instead; if the descriptor is not in
the map it fails with the MinimumVersionNotMet diagnostic. -/
theorem scan_failure_classification (fs : FS) (environ : String → Option String)
    (path_name arch : String) (path_dirs : List String) (found : String)
    (hcp : _create_path_list environ path_name arch = .ok path_dirs)
    (hscan : scanDirs fs "" [joinPath "bin" arch, joinPath "bin" arch ++ "/"] path_dirs
      = .ok ("", found))
    (hfound : found ≠ "") :
    (∀ rel, List.lookup found VER_TO_REL = some rel →
      search_path_for_directory_unix fs environ path_name arch "" =
        .error (incompatible_ver rel found)) ∧
    (List.lookup found VER_TO_REL = none →
      search_path_for_directory_unix fs environ path_name arch "" =
        .error minimum_required) := by
  constructor
  · intro rel hrel
    simp [search_path_for_directory_unix, hcp, hscan, hfound, hrel]
  · intro hrel
    simp [search_path_for_directory_unix, hcp, hscan, hfound, hrel]

/-- Environment whose search path holds the single candidate
`/opt/m/bin/glnxa64`. -/
def envA : String → Option String :=
  fun n => if n == "LD_LIBRARY_PATH" then some "/opt/m/bin/glnxa64" else none

/-- A candidate installation at `/opt/m` whose `VersionInfo.xml` reports the
release text `R2018b`, which is not in the known-version map. -/
def fsB : FS :=
  { isFile := fun p => p == "/opt/m/bin/glnxa64/MATLAB" || p == "/opt/m/VersionInfo.xml"
    isDir := fun _ => false
    pathExists := fun _ => false
    parseXml := fun p =>
      if p == "/opt/m/VersionInfo.xml" then .ok [⟨"release", "R2018b"⟩]
      else .error "ParseError" }

/-- Witness for claim C1: a rejected candidate's descriptor `9.10` (a key of
`VER_TO_REL`) yields IncompatibleVersion naming `9.10`; descriptor `R2018b`
(not a key) yields MinimumVersionNotMet. -/
theorem scan_failure_classification_witness :
    search_path_for_directory_unix fsA envA "LD_LIBRARY_PATH" "glnxa64" "" =
      .error (incompatible_ver "R2021a" "9.10") ∧
    search_path_for_directory_unix fsB envA "LD_LIBRARY_PATH" "glnxa64" "" =
      .error minimum_required :=
  ⟨(scan_failure_classification fsA envA "LD_LIBRARY_PATH" "glnxa64"
      ["/opt/m/bin/glnxa64"] "9.10" rfl rfl (by decide)).1 "R2021a" rfl,
   (scan_failure_classification fsB envA "LD_LIBRARY_PATH" "glnxa64"
      ["/opt/m/bin/glnxa64"] "R2018b" rfl rfl (by decide)).2 rfl⟩

/-! Claim C2: the first passing candidate wins. -/

theorem verify_ok_true_isFile {fs : FS} {found root f' : String}
    (h : verify_matlab_release fs found root = .ok (true, f')) :
    fs.isFile (joinPath root "VersionInfo.xml") = true := by
  cases hf : fs.isFile (joinPath root "VersionInfo.xml") with
  | true => rfl
  | false => simp [verify_matlab_release, hf] at h

theorem get_root_success (fs : FS) (found d f₂ : String)
    (hm : fs.isFile (joinPath d "MATLAB") = true)
    (hv : verify_matlab_release fs found (rootOf d) = .ok (true, f₂)) :
    _get_matlab_root_from_unix_bin fs found d = .ok (rootOf d, f₂) := by
  simp [_get_matlab_root_from_unix_bin, hm, hv]

theorem scanEndings_hit (fs : FS) (found d e₁ e₂ f₂ : String)
    (he : strEndsWith d e₁ = true ∨ strEndsWith d e₂ = true)
    (hm : fs.isFile (joinPath d "MATLAB") = true)
    (hv : verify_matlab_release fs found (rootOf d) = .ok (true, f₂)) :
    scanEndings fs found d [e₁, e₂] = .ok (rootOf d, f₂) := by
  have hroot : rootOf d ≠ "" := rootOf_ne_empty d
  have hget := get_root_success fs found d f₂ hm hv
  cases h1 : strEndsWith d e₁ with
  | true => simp [scanEndings, h1, hget, hroot]
  | false =>
    have h2 : strEndsWith d e₂ = true := by
      rcases he with h | h
      · rw [h1] at h; cases h
      · exact h
    simp [scanEndings, h1, h2, hget, hroot]

theorem scanDirs_append (fs : FS) (endings : List String) (l₁ l₂ : List String)
    (found f₁ : String)
    (h : scanDirs fs found endings l₁ = .ok ("", f₁)) :
    scanDirs fs found endings (l₁ ++ l₂) = scanDirs fs f₁ endings l₂ := by
  induction l₁ generalizing found with
  | nil =>
    simp only [scanDirs, Except.ok.injEq, Prod.mk.injEq, true_and] at h
    rw [h]
    rfl
  | cons p rest ih =>
    cases hse : scanEndings fs found p endings with
    | error e => simp [scanDirs, hse] at h
    | ok rf =>
      obtain ⟨r, f⟩ := rf
      by_cases hr : r = ""
      · subst hr
        have h' : scanDirs fs f endings rest = .ok ("", f₁) := by
          simpa [scanDirs, hse] using h
        simpa [scanDirs, hse] using ih f h'
      · simp [scanDirs, hse, hr] at h

/-- Claim C2: among the ordered candidate directories read from the
search-path variable, `search_path_for_directory_unix` returns the root
derived (two levels up, normalized) from the first candidate that ends with
`bin/<arch>` (with or without one trailing separator), contains a file named
`MATLAB` directly inside it, and whose derived root passes
`verify_matlab_release`; the result does not depend on any later candidate
(`post` is universally quantified).  The hypothesis `hfsc` is filesystem
consistency: a directory containing the candidate's `VersionInfo.xml` file
is a directory. -/
theorem first_matching_candidate_wins (fs : FS) (environ : String → Option String)
    (path_name arch pstr : String) (pre : List String) (d : String) (post : List String)
    (found₁ f₂ : String)
    (henv : environ path_name = some pstr)
    (hsplit : strSplit pstr ':' = pre ++ d :: post)
    (hpre : scanDirs fs "" [joinPath "bin" arch, joinPath "bin" arch ++ "/"] pre
      = .ok ("", found₁))
    (he : strEndsWith d (joinPath "bin" arch) = true ∨
          strEndsWith d (joinPath "bin" arch ++ "/") = true)
    (hm : fs.isFile (joinPath d "MATLAB") = true)
    (hv : verify_matlab_release fs found₁ (rootOf d) = .ok (true, f₂))
    (hfsc : fs.isFile (joinPath (rootOf d) "VersionInfo.xml") = true →
      fs.isDir (rootOf d) = true) :
    search_path_for_directory_unix fs environ path_name arch "" = .ok (rootOf d) := by
  have hdir : fs.isDir (rootOf d) = true := hfsc (verify_ok_true_isFile hv)
  have hroot : rootOf d ≠ "" := rootOf_ne_empty d
  have hse := scanEndings_hit fs found₁ d _ _ f₂ he hm hv
  have hscan : scanDirs fs "" [joinPath "bin" arch, joinPath "bin" arch ++ "/"]
      (pre ++ d :: post) = .ok (rootOf d, f₂) := by
    rw [scanDirs_append fs _ pre (d :: post) "" found₁ hpre]
    simp [scanDirs, hse, hroot]
  have hcp : _create_path_list environ path_name arch = .ok (pre ++ d :: post) := by
    simp [_create_path_list, henv, hsplit]
  simp [search_path_for_directory_unix, hcp, hscan, hroot, hdir]

/-- The spec's concrete example filesystem: only `/opt/y` (parent-of-parent
of the second candidate) is a valid installation with a matching release. -/
def fsC : FS :=
  { isFile := fun p => p == "/opt/y/bin/glnxa64/MATLAB" || p == "/opt/y/VersionInfo.xml"
    isDir := fun p => p == "/opt/y"
    pathExists := fun _ => false
    parseXml := fun p =>
      if p == "/opt/y/VersionInfo.xml" then .ok [⟨"release", "R2022a"⟩]
      else .error "ParseError" }

/-- Environment for the spec's concrete two-candidate example. -/
def envC : String → Option String :=
  fun n => if n == "LD_LIBRARY_PATH" then some "/opt/x/bin/glnxa64:/opt/y/bin/glnxa64/" else none

/-- Witness for claim C2 at the spec's concrete example: the first candidate
has no `MATLAB` marker, the second (with a trailing separator) passes, and
its derived root `/opt/y` is returned. -/
theorem first_matching_candidate_wins_witness :
    search_path_for_directory_unix fsC envC "LD_LIBRARY_PATH" "glnxa64" "" = .ok "/opt/y" :=
  first_matching_candidate_wins fsC envC "LD_LIBRARY_PATH" "glnxa64"
    "/opt/x/bin/glnxa64:/opt/y/bin/glnxa64/" ["/opt/x/bin/glnxa64"] "/opt/y/bin/glnxa64/" []
    "" "R2022a" rfl rfl rfl (Or.inr rfl) rfl rfl (fun _ => rfl)

/-! Claim C8: no partial state on failure. -/

/-- Claim C8: if any step of `run` fails (platform resolution,
runtime-version check, registry lookup, or search-path scan), the run ends
with that error and no file has been written; the discovery file is written
(exactly once) only when a matlabRoot was confirmed, i.e. when the run
succeeds. -/
theorem run_no_partial_state (env : Env) :
    (∀ e, (run env).1 = .error e → (run env).2 = []) ∧
    (∀ w ws, (run env).2 = w :: ws → (run env).1 = .ok () ∧ ws = []) := by
  simp only [run]
  cases hp : set_platform_and_arch env.system env.macArm with
  | error e => simp
  | ok pa =>
    obtain ⟨path_name, arch⟩ := pa
    cases hv : set_python_version env.pyMajor env.pyMinor with
    | error e => simp
    | ok v =>
      cases hR : (if env.system = "Windows" then get_matlab_root_from_windows_reg env.registry
          else if unix_default_install_exists env.fs env.system then
            Except.ok ((DEFAULT_INSTALLS env.system).getD "")
          else search_path_for_directory_unix env.fs env.environ path_name arch "") with
      | error e => simp [hR]
      | ok root => simp [hR]

/-- An environment on an unsupported platform. -/
def envFail : Env :=
  { system := "Solaris", macArm := false, pyMajor := 3, pyMinor := 9
    environ := fun _ => none, fs := fsEmpty
    registry := { matlabKey := none, rootValue := fun _ => none }, cwd := "/w" }

/-- Witness for claim C8: a failing run writes nothing. -/
theorem run_no_partial_state_witness : (run envFail).2 = [] :=
  (run_no_partial_state envFail).1 (unsupported_platform "Solaris") rfl

/-! Claim C9: the default-path fast accept skips all verification. -/

/-- Claim C9: on non-registry platforms, whenever the hardcoded default
install path merely exists (`os.path.exists`), `run` accepts it as
matlabRoot and writes the discovery file.  The filesystem is otherwise
unconstrained — the hypotheses say nothing about `VersionInfo.xml`, the
`MATLAB` marker, or `isDir` — so no release verification, marker check or
directory check is performed on this path. -/
theorem default_install_fast_accept (env : Env) (dflt : String)
    (hplat : env.system = "Linux" ∨ env.system = "Darwin")
    (hpy : SUPPORTED_PYTHON_VERSIONS.contains
      (toString env.pyMajor ++ "." ++ toString env.pyMinor) = true)
    (hd : DEFAULT_INSTALLS env.system = some dflt)
    (hex : env.fs.pathExists dflt = true) :
    run env = (.ok (), [write_text_file env.cwd
      (if env.system = "Linux" then "glnxa64"
       else if env.macArm then "maca64" else "maci64") dflt]) := by
  obtain ⟨sys, arm, pM, pm, envv, fs, reg, cwd⟩ := env
  simp only at hplat hpy hd hex ⊢
  rcases hplat with h | h <;> subst h
  · have hd' : dflt = "/usr/local/MATLAB/" ++ MATLAB_REL := by
      have : some ("/usr/local/MATLAB/" ++ MATLAB_REL) = some dflt := hd
      exact (Option.some.injEq _ _ ▸ this).symm
    subst hd'
    have hmem : (toString pM ++ "." ++ toString pm) ∈ SUPPORTED_PYTHON_VERSIONS := by
      simpa using hpy
    have hlk : List.lookup "Linux" PLATFORM_DICT = some "LD_LIBRARY_PATH" := rfl
    simp [run, set_platform_and_arch, set_python_version, unix_default_install_exists,
      DEFAULT_INSTALLS, hlk, hmem, hex]
  · have hd' : dflt = "/Applications/MATLAB_" ++ MATLAB_REL ++ ".app" := by
      have : some ("/Applications/MATLAB_" ++ MATLAB_REL ++ ".app") = some dflt := hd
      exact (Option.some.injEq _ _ ▸ this).symm
    subst hd'
    have hmem : (toString pM ++ "." ++ toString pm) ∈ SUPPORTED_PYTHON_VERSIONS := by
      simpa using hpy
    have hlk : List.lookup "Darwin" PLATFORM_DICT = some "DYLD_LIBRARY_PATH" := rfl
    simp [run, set_platform_and_arch, set_python_version, unix_default_install_exists,
      DEFAULT_INSTALLS, hlk, hmem, hex]

/-- A hostile filesystem on which only the default Linux install path
exists; everything else is absent, nothing is a directory, and every XML
parse fails. -/
def fsD : FS :=
  { isFile := fun _ => false
    isDir := fun _ => false
    pathExists := fun p => p == "/usr/local/MATLAB/R2022a"
    parseXml := fun _ => .error "ParseError" }

/-- A Linux host whose filesystem is `fsD`. -/
def envD : Env :=
  { system := "Linux", macArm := false, pyMajor := 3, pyMinor := 8
    environ := fun _ => none, fs := fsD
    registry := { matlabKey := none, rootValue := fun _ => none }, cwd := "/w" }

/-- Witness for claim C9: on `fsD` — no `MATLAB` marker anywhere, no
readable `VersionInfo.xml`, and the default path not even a directory — the
run still succeeds and writes the discovery file for the default root. -/
theorem default_install_fast_accept_witness :
    run envD = (.ok (), [write_text_file "/w" "glnxa64" "/usr/local/MATLAB/R2022a"]) :=
  default_install_fast_accept envD "/usr/local/MATLAB/R2022a"
    (Or.inl rfl) rfl rfl rfl

/-! Claim C10: evolution of `found_matlab` across a failed scan. -/

/-- The release text a candidate directory contributes to `found_matlab`:
present exactly when the candidate has the `MATLAB` marker file, a present
and well-formed `VersionInfo.xml` at its derived root, and that document has
a child element tagged `release`. -/
def parsedRelease (fs : FS) (p : String) : Option String :=
  let vi := joinPath (rootOf p) "VersionInfo.xml"
  if fs.isFile (joinPath p "MATLAB") && fs.isFile vi then
    match fs.parseXml vi with
    | .ok children => (children.find? (fun c => c.tag == "release")).map XmlChild.text
    | .error _ => none
  else none

/-- `parsedRelease` guarded by the syntactic suffix test: the contribution of
a candidate as seen by the scan loop. -/
def candidateRelease (fs : FS) (endings : List String) (p : String) : Option String :=
  if endings.any (fun e => strEndsWith p e) then parsedRelease fs p else none

theorem get_root_found_update (fs : FS) (found p f' : String)
    (h : _get_matlab_root_from_unix_bin fs found p = .ok ("", f')) :
    f' = (parsedRelease fs p).getD found := by
  unfold _get_matlab_root_from_unix_bin verify_matlab_release at h
  unfold parsedRelease
  cases hm : fs.isFile (joinPath p "MATLAB") with
  | false =>
    simp only [hm, Bool.false_eq_true, if_false, Except.ok.injEq, Prod.mk.injEq,
      true_and, Bool.false_and] at h ⊢
    simp [h]
  | true =>
    cases hvi : fs.isFile (joinPath (rootOf p) "VersionInfo.xml") with
    | false =>
      simp only [hm, hvi] at h ⊢
      simp at h
      simp [h]
    | true =>
      cases hx : fs.parseXml (joinPath (rootOf p) "VersionInfo.xml") with
      | error e =>
        simp only [hm, hvi, hx] at h
        simp at h
      | ok cs =>
        cases hf : cs.find? (fun c => c.tag == "release") with
        | none =>
          simp only [hm, hvi, hx, hf] at h ⊢
          simp at h
          simp [h]
        | some c =>
          simp only [hm, hvi, hx, hf] at h ⊢
          cases hrel : (c.text == MATLAB_REL) with
          | true =>
            rw [hrel] at h
            simp at h
            exact absurd h.1 (rootOf_ne_empty p)
          | false =>
            rw [hrel] at h
            simp at h
            simp [h]

theorem scanEndings_found_update (fs : FS) (p : String) (es : List String) (found f' : String)
    (h : scanEndings fs found p es = .ok ("", f')) :
    f' = if es.any (fun e => strEndsWith p e) then (parsedRelease fs p).getD found
         else found := by
  induction es generalizing found with
  | nil =>
    simp only [scanEndings, Except.ok.injEq, Prod.mk.injEq, true_and] at h
    simp [h]
  | cons e rest ih =>
    cases he : strEndsWith p e with
    | false =>
      have h' : scanEndings fs found p rest = .ok ("", f') := by
        simpa [scanEndings, he] using h
      have := ih found h'
      simpa [List.any_cons, he] using this
    | true =>
      cases hg : _get_matlab_root_from_unix_bin fs found p with
      | error err => simp [scanEndings, he, hg] at h
      | ok rf =>
        obtain ⟨r, f⟩ := rf
        by_cases hr : r = ""
        · subst hr
          have h' : scanEndings fs f p rest = .ok ("", f') := by
            simpa [scanEndings, he, hg] using h
          have hup : f = (parsedRelease fs p).getD found := get_root_found_update fs found p f hg
          have hrec := ih f h'
          simp only [List.any_cons, he, Bool.true_or, if_pos]
          rw [hrec, hup]
          cases hrest : rest.any (fun e => strEndsWith p e) with
          | false => simp [hrest]
          | true =>
            simp only [hrest, if_pos]
            cases parsedRelease fs p <;> simp
        · simp [scanEndings, he, hg, hr] at h
    -- the `true` branch with a non-empty root contradicts the `.ok ("", _)` hypothesis

/-- Claim C10: throughout a (completed, unsuccessful) search-path scan, the
final value of `found_matlab` is the fold of the candidates' contributions
over the initial value: each candidate that passes the suffix and marker
tests and whose `VersionInfo.xml` parses with a `release` element overwrites
the field with that release text, while a candidate whose `VersionInfo.xml`
is absent (or lacks a `release` element, or which fails the earlier tests)
leaves it unchanged — so the end-of-scan failure classification may name a
release read from an earlier rejected candidate. -/
theorem scan_found_matlab_evolution (fs : FS) (endings dirs : List String) (found f' : String)
    (h : scanDirs fs found endings dirs = .ok ("", f')) :
    f' = dirs.foldl (fun acc p => (candidateRelease fs endings p).getD acc) found := by
  induction dirs generalizing found with
  | nil =>
    simp only [scanDirs, Except.ok.injEq, Prod.mk.injEq, true_and] at h
    simp [h]
  | cons p rest ih =>
    cases hse : scanEndings fs found p endings with
    | error e => simp [scanDirs, hse] at h
    | ok rf =>
      obtain ⟨r, f⟩ := rf
      by_cases hr : r = ""
      · subst hr
        have h' : scanDirs fs f endings rest = .ok ("", f') := by
          simpa [scanDirs, hse] using h
        have hup := scanEndings_found_update fs p endings found f hse
        have hf : f = (candidateRelease fs endings p).getD found := by
          rw [hup]
          unfold candidateRelease
          split <;> simp
        rw [List.foldl_cons, ← hf]
        exact ih f h'
      · simp [scanDirs, hse, hr] at h

/-- Two-candidate filesystem: `/a` is rejected after its `VersionInfo.xml`
(release text `9.10`) is parsed; `/b` has a marker but no `VersionInfo.xml`
at all. -/
def fsW : FS :=
  { isFile := fun p => p == "/a/bin/glnxa64/MATLAB" || p == "/a/VersionInfo.xml" ||
      p == "/b/bin/glnxa64/MATLAB"
    isDir := fun _ => false
    pathExists := fun _ => false
    parseXml := fun p =>
      if p == "/a/VersionInfo.xml" then .ok [⟨"release", "9.10"⟩]
      else .error "ParseError" }

/-- Witness for claim C10: after scanning `/a` (descriptor `9.10`, rejected)
and then `/b` (no `VersionInfo.xml`), `found_matlab` still holds `9.10`,
read from the earlier rejected candidate. -/
theorem scan_found_matlab_evolution_witness :
    ("9.10" : String) =
      List.foldl (fun acc p =>
          (candidateRelease fsW [joinPath "bin" "glnxa64", joinPath "bin" "glnxa64" ++ "/"] p).getD acc)
        "" ["/a/bin/glnxa64", "/b/bin/glnxa64"] :=
  scan_found_matlab_evolution fsW [joinPath "bin" "glnxa64", joinPath "bin" "glnxa64" ++ "/"]
    ["/a/bin/glnxa64", "/b/bin/glnxa64"] "" "9.10" rfl

end MatlabFinder
